import Mathlib

/-!
Verification of the HMPI dashboard's classification and aggregation logic.

The definitions below are shallow embeddings of the TypeScript source:
JavaScript numbers that may be `undefined` or `NaN` are modelled by `JSNum`,
general record field values (which may also be strings) by `JSVal`, and
numeric scores/coordinates by rationals.  Stateful React components are
modelled by explicit state records and step functions.
-/

set_option maxRecDepth 4000

/-- Model of a JavaScript value statically typed `number` but possibly
`undefined` or `NaN` at runtime. -/
inductive JSNum where
  | undef : JSNum
  | nan : JSNum
  | num : ℚ → JSNum
deriving DecidableEq, Repr

/-- JavaScript truthiness of a `JSNum`: `undefined`, `NaN` and `0` are falsy. -/
def JSNum.truthy : JSNum → Bool
  | .undef => false
  | .nan => false
  | .num q => q != 0

/-- The global `isNaN` applied to a `JSNum`: `isNaN(undefined)` is `true`
because `undefined` coerces to `NaN`. -/
def JSNum.isNaNJS : JSNum → Bool
  | .undef => true
  | .nan => true
  | .num _ => false

/-- Embedding of the `MapDataPoint` record of `SimpleMap.tsx`; coordinates are
kept as `JSNum` because the coordinate filter exists precisely to weed out
malformed ones. -/
structure MapDataPoint where
  id : ℕ
  latitude : JSNum
  longitude : JSNum
  hmpi_value : ℚ
  year : Option ℤ := none
deriving DecidableEq, Repr

/-- Embedding of the `validData` filter predicate of `fetchMapData`
(`SimpleMap.tsx`), verbatim from the source:
`point.latitude && point.longitude && !isNaN(point.latitude) && !isNaN(point.longitude)`. -/
def isValidCoords (p : MapDataPoint) : Bool :=
  p.latitude.truthy && p.longitude.truthy &&
    !p.latitude.isNaNJS && !p.longitude.isNaNJS

/-- The specification's contract for the coordinate validator, written from the
spec's words (for comparing against `isValidCoords`): latitude and longitude
are present, numeric, and not NaN. -/
def specIsValid (p : MapDataPoint) : Prop :=
  (∃ a : ℚ, p.latitude = .num a) ∧ (∃ b : ℚ, p.longitude = .num b)

/-- Embedding of `getColorByHMPI` (`SimpleMap.tsx`). -/
def getColorByHMPI (hmpiValue : ℚ) : String :=
  if hmpiValue < 25 then "#2E7D32"
  else if hmpiValue < 50 then "#66BB6A"
  else if hmpiValue < 75 then "#FFA726"
  else if hmpiValue < 100 then "#FF5722"
  else "#D32F2F"

/-- Embedding of `getQualityCategory` (`SimpleMap.tsx`). -/
def getQualityCategory (hmpiValue : ℚ) : String :=
  if hmpiValue < 25 then "Excellent"
  else if hmpiValue < 50 then "Good"
  else if hmpiValue < 75 then "Poor"
  else if hmpiValue < 100 then "Very Poor"
  else "Unsuitable"

/-- Severity rank of a quality category, in the increasing order given by the
classification table (Excellent < Good < Poor < Very Poor < Unsuitable). -/
def severityIndex : String → ℕ
  | "Excellent" => 0
  | "Good" => 1
  | "Poor" => 2
  | "Very Poor" => 3
  | "Unsuitable" => 4
  | _ => 5

/-- Embedding of the heat-intensity mapping of `HeatmapLayer` (the `heatPoints`
construction): fine thresholds 2/10/50/100, distinct from the coarse
category/color thresholds. -/
def heatIntensity (h : ℚ) : ℚ :=
  if h < 2 then 0.0005
  else if h < 10 then 0.005
  else if h < 50 then 0.05
  else if h < 100 then 0.3
  else 0.7

/-- Embedding of the `stats` payload of the map API response (`SimpleMap.tsx`,
`MapStats`); only the fields the component stores are kept. -/
structure MapStats where
  total_samples : ℕ
  average_hmpi : ℚ
deriving DecidableEq, Repr

/-- Embedding of the `pagination` payload of the map API response. -/
structure Pagination where
  current_page : ℕ
  total_pages : ℕ
  total_records : ℕ
deriving DecidableEq, Repr

/-- Embedding of `MapApiResponse` (`SimpleMap.tsx`). -/
structure MapApiResponse where
  data : List MapDataPoint
  stats : MapStats
  pagination : Pagination
deriving DecidableEq, Repr

/-- Outcome of one `fetch` call as observed by `fetchMapData`: a successful
JSON response, a non-ok HTTP status, or a thrown network error. -/
inductive FetchOutcome where
  | success : MapApiResponse → FetchOutcome
  | httpStatus : ℕ → FetchOutcome
  | networkFailure : String → FetchOutcome
deriving DecidableEq, Repr

/-- The React state of the `InteractiveMap` component: `mapData`, `stats`,
`loading`, `error`, `currentPage`, `totalPages`. -/
structure IMapState where
  mapData : List MapDataPoint
  stats : Option MapStats
  loading : Bool
  error : Option String
  currentPage : ℕ
  totalPages : ℕ
deriving DecidableEq, Repr

/-- The `useState` initial values of `InteractiveMap`: empty data, no stats,
`loading = true`, no error, `currentPage = 1`, `totalPages = 1`. -/
def initialIMapState : IMapState :=
  { mapData := [], stats := none, loading := true, error := none,
    currentPage := 1, totalPages := 1 }

/-- Embedding of `InteractiveMap.fetchMapData` as a state transformer: given
whether an access token is available and the outcome of the HTTP request, it
produces the component state after the call completes.  On success the valid
records REPLACE `mapData` (the source calls `setMapData(validData)`); on any
error the message is stored in `error` and `mapData` is left unchanged;
`loading` is always `false` afterwards (the `finally` block). -/
def fetchMapData (hasToken : Bool) (s : IMapState) (outcome : FetchOutcome) :
    IMapState :=
  if !hasToken then
    { s with error := some "Authentication required - please log in",
             loading := false }
  else
    match outcome with
    | .success resp =>
        let validData := resp.data.filter isValidCoords
        { s with mapData := validData,
                 stats := some resp.stats,
                 totalPages := resp.pagination.total_pages,
                 currentPage := resp.pagination.current_page,
                 error := none,
                 loading := false }
    | .httpStatus code =>
        if code = 401 then
          { s with error := some "Authentication expired - please log in again",
                   loading := false }
        else
          { s with error := some ("HTTP error! status: " ++ toString code),
                   loading := false }
    | .networkFailure msg =>
        { s with error := some msg, loading := false }

/-- The view the `InteractiveMap` render body selects, in source order:
login prompt, initial spinner, error screen with retry, or the map. -/
inductive IMapView where
  | loginPrompt : IMapView
  | spinner : IMapView
  | errorRetry : String → IMapView
  | mapView : List MapDataPoint → IMapView
deriving DecidableEq, Repr

/-- Embedding of the `InteractiveMap` render dispatch: `!isAuthenticated`
first, then `loading && mapData.length === 0`, then `error`, else the map with
the currently held markers. -/
def renderIMap (isAuthenticated : Bool) (s : IMapState) : IMapView :=
  if !isAuthenticated then .loginPrompt
  else if s.loading && s.mapData.length == 0 then .spinner
  else
    match s.error with
    | some e => .errorRetry e
    | none => .mapView s.mapData

/-- Embedding of `InteractiveMap.loadMoreData`: returns the page number it
requests, or `none` when the guard `currentPage < totalPages && !loading`
blocks the request. -/
def loadMoreData (s : IMapState) : Option ℕ :=
  if s.currentPage < s.totalPages && !s.loading then some (s.currentPage + 1)
  else none

/-- Folding successive successful page responses through `fetchMapData`, the
way the initial load followed by repeated `loadMoreData` clicks does. -/
def runPages (s : IMapState) (pages : List MapApiResponse) : IMapState :=
  pages.foldl (fun st resp => fetchMapData true st (.success resp)) s

/-- A concrete valid sample point with the given id. -/
def mkPt (i : ℕ) : MapDataPoint :=
  { id := i, latitude := .num 20, longitude := .num 78, hmpi_value := 1,
    year := none }

/-- `count` consecutive valid sample points with ids starting at `start`. -/
def pageData (start count : ℕ) : List MapDataPoint :=
  (List.range count).map (fun i => mkPt (start + i))

/-- The three page responses of the 500/500/12 aggregation scenario, with
distinct ids throughout and consistent pagination metadata. -/
def scenarioPages : List MapApiResponse :=
  [ { data := pageData 0 500, stats := ⟨1012, 1⟩,
      pagination := ⟨1, 3, 1012⟩ },
    { data := pageData 500 500, stats := ⟨1012, 1⟩,
      pagination := ⟨2, 3, 1012⟩ },
    { data := pageData 1000 12, stats := ⟨1012, 1⟩,
      pagination := ⟨3, 3, 1012⟩ } ]

/-- The React state of the `HeatMap` component relevant to the year-filter
race: the held point set, the currently selected year (`null` meaning all
years), and the list of in-flight requests, each tagged with the year that
`fetchMapData` captured in its URL when the request was issued. -/
structure HeatAgg where
  mapData : List MapDataPoint
  activeYear : Option ℤ
  pending : List (Option ℤ)
deriving DecidableEq, Repr

/-- Events acting on the `HeatMap` component: a year-filter change (whose
effect immediately issues a new fetch capturing the new year), and the arrival
of the response to the `i`-th in-flight request carrying `data`. -/
inductive HEvent where
  | setYear : Option ℤ → HEvent
  | arrive : ℕ → List MapDataPoint → HEvent
deriving DecidableEq, Repr

/-- One step of the `HeatMap` component.  `setYear` updates the filter and
issues a fetch for it (the `useEffect` on `selectedYear`).  `arrive` runs the
continuation of `HeatMap.fetchMapData` after the `await`: the source filters
the payload for valid coordinates and unconditionally calls
`setMapData(validData)` - it never compares the captured year with the
currently active one. -/
def hstep (s : HeatAgg) : HEvent → HeatAgg
  | .setYear y => { s with activeYear := y, pending := s.pending ++ [y] }
  | .arrive i data =>
      if i < s.pending.length then
        { s with mapData := data.filter isValidCoords,
                 pending := s.pending.eraseIdx i }
      else s

/-- Running a sequence of events from a `HeatAgg` state. -/
def hrun (s : HeatAgg) (es : List HEvent) : HeatAgg := es.foldl hstep s

/-- The initial `HeatMap` state: no data, no filter, nothing in flight. -/
def heatInit : HeatAgg := { mapData := [], activeYear := none, pending := [] }

/-- A valid point tagged with a year, to mark which request produced it. -/
def mkYearPt (i : ℕ) (y : ℤ) : MapDataPoint :=
  { id := i, latitude := .num 20, longitude := .num 78, hmpi_value := 1,
    year := some y }

/-- The race trace: select year 2020 (fetch issued), select year 2021 while
the first fetch is still in flight (second fetch issued), the 2021 response
arrives first, then the stale 2020 response arrives last. -/
def staleTrace : List HEvent :=
  [ .setYear (some 2020),
    .setYear (some 2021),
    .arrive 1 [mkYearPt 2 2021],
    .arrive 0 [mkYearPt 1 2020] ]

/-- Model of a raw JavaScript record field value: `undefined`, `NaN`,
a number, or a string. -/
inductive JSVal where
  | undef : JSVal
  | nan : JSVal
  | num : ℚ → JSVal
  | str : String → JSVal
deriving DecidableEq, Repr

/-- JavaScript truthiness of a `JSVal`: `undefined`, `NaN`, `0` and the empty
string are falsy. -/
def JSVal.truthy : JSVal → Bool
  | .undef => false
  | .nan => false
  | .num q => q != 0
  | .str s => s != ""

/-- Whether `typeof v === 'number'` holds (`NaN` is of type `number`). -/
def JSVal.typeofNumber : JSVal → Bool
  | .nan => true
  | .num _ => true
  | _ => false

/-- The numeric payload of a `JSVal`, defaulting to `0`. -/
def JSVal.asNum : JSVal → ℚ
  | .num q => q
  | _ => 0

/-- A raw sample record as consumed by `fetchAvailableYears`: an optional
`year` field and the four date-like fields probed as fallbacks. -/
structure RawSample where
  year : JSVal := .undef
  collection_date : JSVal := .undef
  date_collected : JSVal := .undef
  created_at : JSVal := .undef
  date : JSVal := .undef
deriving DecidableEq, Repr

/-- The date-like field values of a sample in the fixed probing order of the
source: `collection_date`, `date_collected`, `created_at`, `date`. -/
def dateFieldVals (s : RawSample) : List JSVal :=
  [s.collection_date, s.date_collected, s.created_at, s.date]

/-- The fallback loop of `fetchAvailableYears`: probe the date fields in
order; a falsy field is skipped, a truthy field is parsed (`getYear` models
`new Date(v).getFullYear()`, `none` standing for `NaN`); the loop breaks at
the first successful extraction and otherwise continues. -/
def probeDates (getYear : JSVal → Option ℚ) : List JSVal → Option ℚ
  | [] => none
  | v :: rest =>
      if v.truthy then
        match getYear v with
        | some y => some y
        | none => probeDates getYear rest
      else probeDates getYear rest

/-- Year resolution for one sample, verbatim from `fetchAvailableYears`:
`if (sample.year && typeof sample.year === 'number')` use it, else run the
date-field fallback loop. -/
def resolveYear (getYear : JSVal → Option ℚ) (s : RawSample) : Option ℚ :=
  if s.year.truthy && s.year.typeofNumber then some s.year.asNum
  else probeDates getYear (dateFieldVals s)

/-- Insertion into the accumulator mimicking `Set<number>.add`: already-seen
years are not added again. -/
def insertUniq (acc : List ℚ) (y : ℚ) : List ℚ :=
  if y ∈ acc then acc else acc ++ [y]

/-- The body of the `forEach` of `fetchAvailableYears`: a sample contributes
its resolved year to the set, or nothing. -/
def yearStep (getYear : JSVal → Option ℚ) (acc : List ℚ) (s : RawSample) :
    List ℚ :=
  match resolveYear getYear s with
  | some y => insertUniq acc y
  | none => acc

/-- The `forEach` accumulation of `fetchAvailableYears`: every sample
contributes at most its resolved year to the set. -/
def collectYears (getYear : JSVal → Option ℚ) (samples : List RawSample) :
    List ℚ :=
  samples.foldl (yearStep getYear) []

/-- `Array.from(years).sort((a, b) => b - a)`: the collected distinct years
sorted descending (insertion sort is one correct comparison sort; on a
duplicate-free input every correct descending sort yields the same list). -/
def availableYears (getYear : JSVal → Option ℚ) (samples : List RawSample) :
    List ℚ :=
  List.insertionSort (· ≥ ·) (collectYears getYear samples)

/-- A concrete date parser for counterexamples: it recognises exactly one
ISO date string. -/
def demoGetYear : JSVal → Option ℚ
  | .str "1999-06-01" => some 1999
  | _ => none

/-- A sample whose explicit `year` field is the number `0` and whose
`created_at` holds a parseable date. -/
def zeroYearSample : RawSample :=
  { year := .num 0, created_at := .str "1999-06-01" }

/-- The state after a successful first page (1 record, 2 total pages). -/
def c6AfterPage1 : IMapState :=
  fetchMapData true initialIMapState
    (.success { data := [mkPt 0], stats := ⟨2, 1⟩, pagination := ⟨1, 2, 2⟩ })

/-- The state after the second page's request fails with HTTP 500. -/
def c6AfterError : IMapState := fetchMapData true c6AfterPage1 (.httpStatus 500)

/-- A mid-pagination idle state: page 2 of 3, no request in flight. -/
def c10DemoState : IMapState :=
  { mapData := [], stats := none, loading := false, error := none,
    currentPage := 2, totalPages := 3 }

/-- A sample with an explicit nonzero numeric year. -/
def c9ExplicitSample : RawSample := { year := .num 2005 }

/-- A sample whose first date field parses. -/
def c9DateSample : RawSample := { collection_date := .str "1999-06-01" }

/-- A sample whose first date field is present but unparseable and whose
second date field parses. -/
def c9SkipSample : RawSample :=
  { collection_date := .str "junk", date_collected := .str "1999-06-01" }

/-- `insertUniq` preserves absence of duplicates. -/
lemma insertUniq_nodup (acc : List ℚ) (y : ℚ) (h : acc.Nodup) :
    (insertUniq acc y).Nodup := by
  by_cases hy : y ∈ acc
  · simpa [insertUniq, hy] using h
  · rw [insertUniq, if_neg hy, List.nodup_append]
    refine ⟨h, List.nodup_singleton y, ?_⟩
    intro a ha hay
    simp only [List.mem_singleton] at hay
    subst hay
    exact hy ha

/-- Membership in `insertUniq`. -/
lemma mem_insertUniq (acc : List ℚ) (y a : ℚ) :
    a ∈ insertUniq acc y ↔ a ∈ acc ∨ a = y := by
  by_cases hy : y ∈ acc
  · rw [insertUniq, if_pos hy]
    constructor
    · exact Or.inl
    · rintro (h | rfl)
      · exact h
      · exact hy
  · rw [insertUniq, if_neg hy]
    simp

/-- The year-set accumulation never introduces duplicates. -/
lemma collect_aux_nodup (getYear : JSVal → Option ℚ) (l : List RawSample) :
    ∀ acc : List ℚ, acc.Nodup → (l.foldl (yearStep getYear) acc).Nodup := by
  induction l with
  | nil => intro acc h; simpa using h
  | cons s rest ih =>
      intro acc h
      rw [List.foldl_cons]
      cases hr : resolveYear getYear s with
      | none => simpa [yearStep, hr] using ih acc h
      | some q =>
          simpa [yearStep, hr] using
            ih (insertUniq acc q) (insertUniq_nodup acc q h)

/-- Membership in the year-set accumulation. -/
lemma mem_collect_aux (getYear : JSVal → Option ℚ) (l : List RawSample) :
    ∀ (acc : List ℚ) (y : ℚ),
      y ∈ l.foldl (yearStep getYear) acc ↔
        y ∈ acc ∨ ∃ s ∈ l, resolveYear getYear s = some y := by
  induction l with
  | nil => intro acc y; simp
  | cons s rest ih =>
      intro acc y
      rw [List.foldl_cons]
      cases hr : resolveYear getYear s with
      | none =>
          rw [show yearStep getYear acc s = acc by simp [yearStep, hr]]
          rw [ih acc y]
          simp only [List.mem_cons]
          constructor
          · rintro (h | ⟨t, ht, hres⟩)
            · exact Or.inl h
            · exact Or.inr ⟨t, Or.inr ht, hres⟩
          · rintro (h | ⟨t, rfl | ht, hres⟩)
            · exact Or.inl h
            · rw [hr] at hres; cases hres
            · exact Or.inr ⟨t, ht, hres⟩
      | some q =>
          rw [show yearStep getYear acc s = insertUniq acc q by
                simp [yearStep, hr]]
          rw [ih (insertUniq acc q) y, mem_insertUniq]
          simp only [List.mem_cons]
          constructor
          · rintro ((h | rfl) | ⟨t, ht, hres⟩)
            · exact Or.inl h
            · exact Or.inr ⟨s, Or.inl rfl, hr⟩
            · exact Or.inr ⟨t, Or.inr ht, hres⟩
          · rintro (h | ⟨t, rfl | ht, hres⟩)
            · exact Or.inl (Or.inl h)
            · rw [hr] at hres
              exact Or.inl (Or.inr (Option.some.inj hres).symm)
            · exact Or.inr ⟨t, ht, hres⟩

/-- `collectYears` has no duplicate years. -/
lemma collectYears_nodup (getYear : JSVal → Option ℚ)
    (samples : List RawSample) : (collectYears getYear samples).Nodup :=
  collect_aux_nodup getYear samples [] List.nodup_nil

/-- A year is collected exactly when some sample resolves to it. -/
lemma mem_collectYears (getYear : JSVal → Option ℚ)
    (samples : List RawSample) (y : ℚ) :
    y ∈ collectYears getYear samples ↔
      ∃ s ∈ samples, resolveYear getYear s = some y := by
  rw [collectYears, mem_collect_aux]
  simp

/-- C2 counterexample: the claim asserts the validator accepts
a point with latitude 0 and longitude 0 (both present, numeric, not NaN),
but the source's truthiness test rejects it because the number 0 is falsy. -/
theorem c2_zero_coords_rejected :
    specIsValid ⟨1, .num 0, .num 0, 5, none⟩ ∧
      isValidCoords ⟨1, .num 0, .num 0, 5, none⟩ = false :=
  ⟨⟨⟨0, rfl⟩, ⟨0, rfl⟩⟩, by decide⟩

/-- C2 (amended): the coordinate filter of `fetchMapData` returns `true` iff
latitude and longitude are both numbers that are nonzero and not NaN; in
particular it rejects a NaN latitude and also rejects zero coordinates. -/
theorem c2_validator_characterization (p : MapDataPoint) :
    isValidCoords p = true ↔
      (∃ a : ℚ, p.latitude = .num a ∧ a ≠ 0) ∧
      (∃ b : ℚ, p.longitude = .num b ∧ b ≠ 0) := by
  rcases p with ⟨i, la, lo, h, y⟩
  cases la <;> cases lo <;>
    simp [isValidCoords, JSNum.truthy, JSNum.isNaNJS]

/-- C3: every score below 25 is categorized Excellent, the Good region starts
exactly at 25 (left-inclusive), and 100 is Unsuitable, as computed by
`getQualityCategory`. -/
theorem c3_coarse_boundaries (s : ℚ) (h : s < 25) :
    getQualityCategory s = "Excellent" ∧
      getQualityCategory 25 = "Good" ∧
      getQualityCategory 100 = "Unsuitable" :=
  ⟨by simp [getQualityCategory, h], by decide, by decide⟩

/-- C3 witness: the boundary facts at the concrete score 3. -/
theorem c3_witness :
    getQualityCategory 3 = "Excellent" ∧
      getQualityCategory 25 = "Good" ∧
      getQualityCategory 100 = "Unsuitable" :=
  c3_coarse_boundaries 3 (by norm_num)

/-- C7: evaluation at the failing input. A record with valid coordinates and
the negative score -1 passes the upstream coordinate filter, and the
classifier maps the score -1 to the Excellent category and its green color,
contradicting the claim that such records fail classification and are
excluded. -/
theorem c7_negative_score_is_excellent :
    getQualityCategory (-1) = "Excellent" ∧
      getColorByHMPI (-1) = "#2E7D32" ∧
      isValidCoords ⟨1, .num 20, .num 78, -1, none⟩ = true := by
  refine ⟨by norm_num [getQualityCategory], by norm_num [getColorByHMPI], by decide⟩

/-- C1 counterexample: running the 3-page 500/500/12 scenario through the
source's page handler leaves 12 points, not the 1012 the claim requires,
because `setMapData(validData)` replaces the collection on every page. -/
theorem c1_scenario_not_accumulated :
    (runPages initialIMapState scenarioPages).mapData.length = 12 ∧
      (runPages initialIMapState scenarioPages).mapData.length ≠ 1012 := by
  constructor <;> decide

/-- C1 (amended): after fetching the 3 pages of 500/500/12 valid records with
no errors, the final state has `loading = false` and no error, `currentPage`
is the last page, and the point collection holds exactly the 12 validated
records of the LAST page: each successful page response substitutes its
validated records for the accumulated collection. -/
theorem c1_pages_substitute :
    (runPages initialIMapState scenarioPages).loading = false ∧
      (runPages initialIMapState scenarioPages).error = none ∧
      (runPages initialIMapState scenarioPages).currentPage = 3 ∧
      (runPages initialIMapState scenarioPages).mapData = pageData 1000 12 ∧
      ∀ (s : IMapState) (resp : MapApiResponse),
        (fetchMapData true s (.success resp)).mapData =
          resp.data.filter isValidCoords := by
  refine ⟨by decide, by decide, by decide, by decide, ?_⟩
  intro s resp
  rfl

/-- C4: the heat-rendering intensity follows the fine threshold scale with
boundaries 2/10/50/100 (constant 0.0005 / 0.005 / 0.05 / 0.3 / 0.7 per band,
hence inside the 0.005-0.05 and 0.3-0.7 ranges on the bands [10,25) and
[75,100)), while the category and color functions are insensitive to the fine
thresholds 2 and 10: they are constant on the whole coarse band [0, 25). -/
theorem c4_fine_scale_for_heat_only (s : ℚ) :
    (0 ≤ s → s < 2 → heatIntensity s = 0.0005) ∧
      (2 ≤ s → s < 10 → heatIntensity s = 0.005) ∧
      (10 ≤ s → s < 25 → 0.005 ≤ heatIntensity s ∧ heatIntensity s ≤ 0.05) ∧
      (25 ≤ s → s < 50 → heatIntensity s = 0.05) ∧
      (50 ≤ s → s < 75 → heatIntensity s = 0.3) ∧
      (75 ≤ s → s < 100 → 0.3 ≤ heatIntensity s ∧ heatIntensity s ≤ 0.7) ∧
      (100 ≤ s → heatIntensity s = 0.7) ∧
      (∀ t u : ℚ, 0 ≤ t → t < 25 → 0 ≤ u → u < 25 →
        getQualityCategory t = getQualityCategory u ∧
          getColorByHMPI t = getColorByHMPI u) := by
  refine ⟨?_, ?_, ?_, ?_, ?_, ?_, ?_, ?_⟩
  · intro h0 h2
    rw [heatIntensity, if_pos h2]
  · intro h2 h10
    rw [heatIntensity, if_neg (by linarith), if_pos h10]
  · intro h10 h25
    rw [heatIntensity, if_neg (by linarith), if_neg (by linarith),
      if_pos (by linarith)]
    norm_num
  · intro h25 h50
    rw [heatIntensity, if_neg (by linarith), if_neg (by linarith),
      if_pos h50]
  · intro h50 h75
    rw [heatIntensity, if_neg (by linarith), if_neg (by linarith),
      if_neg (by linarith), if_pos (by linarith)]
  · intro h75 h100
    rw [heatIntensity, if_neg (by linarith), if_neg (by linarith),
      if_neg (by linarith), if_pos h100]
    norm_num
  · intro h100
    rw [heatIntensity, if_neg (by linarith), if_neg (by linarith),
      if_neg (by linarith), if_neg (by linarith)]
  · intro t u ht0 ht hu0 hu
    constructor
    · rw [getQualityCategory, getQualityCategory, if_pos ht, if_pos hu]
    · rw [getColorByHMPI, getColorByHMPI, if_pos ht, if_pos hu]

/-- C4 witness: concrete evaluations across the fine thresholds. -/
theorem c4_witness :
    heatIntensity 1 = 0.0005 ∧ heatIntensity 30 = 0.05 ∧
      getColorByHMPI 1 = getColorByHMPI 24 :=
  ⟨(c4_fine_scale_for_heat_only 1).1 (by norm_num) (by norm_num),
   (c4_fine_scale_for_heat_only 30).2.2.2.1 (by norm_num) (by norm_num),
   ((c4_fine_scale_for_heat_only 1).2.2.2.2.2.2.2 1 24 (by norm_num)
     (by norm_num) (by norm_num) (by norm_num)).2⟩

/-- C5 counterexample: in the race trace where the year filter moves from
2020 to 2021 while the 2020 fetch is in flight and the stale 2020 response
arrives last, the final point set equals the stale 2020 payload even though
the active filter is 2021 - the stale response IS merged. -/
theorem c5_stale_response_merged :
    (hrun heatInit staleTrace).activeYear = some 2021 ∧
      (hrun heatInit staleTrace).mapData = [mkYearPt 1 2020] ∧
      (mkYearPt 1 2020).year = some 2020 := by
  refine ⟨by decide, by decide, by decide⟩

/-- C5 (amended): the response continuation of `HeatMap.fetchMapData` applies
every arriving response unconditionally - `setMapData` runs with the
response's validated records no matter whether the year captured at request
start still equals the active filter; the last response to arrive wins. -/
theorem c5_response_applied_unconditionally
    (s : HeatAgg) (i : ℕ) (data : List MapDataPoint)
    (h : i < s.pending.length) :
    (hstep s (.arrive i data)).mapData = data.filter isValidCoords := by
  simp [hstep, h]

/-- C5 witness: a pending request whose captured year 2020 differs from the
active year 2021 still overwrites the point set on arrival. -/
theorem c5_witness :
    (hstep ⟨[], some 2021, [some 2020]⟩
      (.arrive 0 [mkYearPt 1 2020])).mapData = [mkYearPt 1 2020] := by
  rw [c5_response_applied_unconditionally ⟨[], some 2021, [some 2020]⟩ 0
    [mkYearPt 1 2020] (by decide)]
  decide

/-- C6 counterexample: a page error after one successful page leaves the
already-loaded point in state, yet the component renders the error screen,
not the map with a warning that the claim's `Partial` behaviour requires. -/
theorem c6_error_hides_loaded_points :
    c6AfterError.mapData = [mkPt 0] ∧
      renderIMap true c6AfterError = .errorRetry "HTTP error! status: 500" := by
  constructor <;> decide

/-- C6 (amended): a successful page leaves no error and renders the map with
the page's validated records (the `Complete` analogue); a page error at ANY
position stores an error message, keeps `mapData` unchanged, and renders the
error screen with retry - also when earlier pages had succeeded; an error on
the very first page leaves nothing loaded. -/
theorem c6_terminal_behaviour :
    (∀ (s : IMapState) (resp : MapApiResponse),
        (fetchMapData true s (.success resp)).error = none ∧
          renderIMap true (fetchMapData true s (.success resp)) =
            .mapView (resp.data.filter isValidCoords)) ∧
      (∀ (s : IMapState) (code : ℕ), ∃ msg : String,
        (fetchMapData true s (.httpStatus code)).error = some msg ∧
          (fetchMapData true s (.httpStatus code)).mapData = s.mapData ∧
          renderIMap true (fetchMapData true s (.httpStatus code)) =
            .errorRetry msg) ∧
      (∀ code : ℕ,
        (fetchMapData true initialIMapState (.httpStatus code)).mapData = []) := by
  refine ⟨?_, ?_, ?_⟩
  · intro s resp
    exact ⟨rfl, rfl⟩
  · intro s code
    by_cases h : code = 401
    · refine ⟨"Authentication expired - please log in again", ?_, ?_, ?_⟩ <;>
        simp [fetchMapData, renderIMap, h]
    · refine ⟨"HTTP error! status: " ++ toString code, ?_, ?_, ?_⟩ <;>
        simp [fetchMapData, renderIMap, h]
  · intro code
    by_cases h : code = 401 <;> simp [fetchMapData, initialIMapState, h]

/-- C8: the classifier is total - every score lands in exactly the five
categories - and the severity of the assigned category is monotone
non-decreasing in the score. -/
theorem c8_total_monotone (s1 s2 : ℚ) (h : s1 ≤ s2) :
    getQualityCategory s1 ∈
        ["Excellent", "Good", "Poor", "Very Poor", "Unsuitable"] ∧
      severityIndex (getQualityCategory s1) ≤
        severityIndex (getQualityCategory s2) := by
  constructor
  · rw [getQualityCategory]
    split_ifs <;> simp
  · rw [getQualityCategory, getQualityCategory]
    split_ifs <;> first | decide | (exfalso; linarith)

/-- C8 witness: totality and monotonicity at the concrete scores 3 and 60. -/
theorem c8_witness :
    getQualityCategory 3 ∈
        ["Excellent", "Good", "Poor", "Very Poor", "Unsuitable"] ∧
      severityIndex (getQualityCategory 3) ≤
        severityIndex (getQualityCategory 60) :=
  c8_total_monotone 3 60 (by norm_num)

/-- C10: `loadMoreData` is a guarded no-op - it issues no request when the
current page is already the last one or while a request is in flight, and any
page it does request never exceeds `totalPages`. -/
theorem c10_load_more_guard (s : IMapState) :
    (s.totalPages ≤ s.currentPage ∨ s.loading = true →
        loadMoreData s = none) ∧
      ∀ p : ℕ, loadMoreData s = some p → p ≤ s.totalPages := by
  have key : ∀ p : ℕ, loadMoreData s = some p →
      s.currentPage < s.totalPages ∧ s.loading = false ∧
        p = s.currentPage + 1 := by
    intro p hp
    rw [loadMoreData] at hp
    split at hp
    · next hcond =>
        rw [Bool.and_eq_true, decide_eq_true_eq, Bool.not_eq_true'] at hcond
        exact ⟨hcond.1, hcond.2, (Option.some.inj hp).symm⟩
    · exact absurd hp (by simp)
  constructor
  · intro h
    cases hlm : loadMoreData s with
    | none => rfl
    | some p =>
        rcases key p hlm with ⟨h1, h2, rfl⟩
        rcases h with h | h
        · omega
        · rw [h2] at h
          cases h
  · intro p hp
    rcases key p hp with ⟨h1, _, rfl⟩
    omega

/-- C10 witness: in the initial state a load is in flight, so no page is
requested; from page 2 of 3 with no load in flight, page 3 is requested and
does not exceed the total. -/
theorem c10_witness :
    loadMoreData initialIMapState = none ∧ 3 ≤ c10DemoState.totalPages :=
  ⟨(c10_load_more_guard initialIMapState).1 (Or.inr rfl),
   (c10_load_more_guard c10DemoState).2 3 (by decide)⟩

/-- C9 counterexample: for a record whose explicit numeric `year` field is 0,
the truthiness test skips it and the date fallback resolves 1999 from
`created_at`, so the explicit year's value is NOT used as the claim states. -/
theorem c9_zero_year_ignored :
    zeroYearSample.year = .num 0 ∧
      resolveYear demoGetYear zeroYearSample = some 1999 ∧
      resolveYear demoGetYear zeroYearSample ≠ some 0 := by
  refine ⟨rfl, by decide, by decide⟩

/-- C9 (amended): an explicit numeric year field is used when it is truthy
(nonzero, non-NaN); otherwise the date-like fields are probed in the fixed
order, skipping absent or unparseable fields and stopping at the first
successful extraction; the resulting `availableYears` list holds each
resolved year exactly once, sorted descending. -/
theorem c9_year_resolution (getYear : JSVal → Option ℚ)
    (samples : List RawSample) :
    (∀ (s : RawSample) (q : ℚ), s.year = .num q → q ≠ 0 →
        resolveYear getYear s = some q) ∧
      (∀ (s : RawSample) (y : ℚ),
        (s.year.truthy && s.year.typeofNumber) = false →
        s.collection_date.truthy = true →
        getYear s.collection_date = some y →
        resolveYear getYear s = some y) ∧
      (∀ (s : RawSample) (y : ℚ),
        (s.year.truthy && s.year.typeofNumber) = false →
        getYear s.collection_date = none →
        s.date_collected.truthy = true →
        getYear s.date_collected = some y →
        resolveYear getYear s = some y) ∧
      (availableYears getYear samples).Nodup ∧
      (availableYears getYear samples).Sorted (· ≥ ·) ∧
      ∀ y : ℚ, y ∈ availableYears getYear samples ↔
        ∃ s ∈ samples, resolveYear getYear s = some y := by
  refine ⟨?_, ?_, ?_, ?_, ?_, ?_⟩
  · intro s q hq hq0
    simp [resolveYear, hq, JSVal.truthy, JSVal.typeofNumber, JSVal.asNum, hq0]
  · intro s y hyear hcd hg
    rw [resolveYear, if_neg (by simp [hyear])]
    simp [dateFieldVals, probeDates, hcd, hg]
  · intro s y hyear hnone htd hg
    rw [resolveYear, if_neg (by simp [hyear])]
    by_cases hcd : s.collection_date.truthy = true
    · simp [dateFieldVals, probeDates, hcd, hnone, htd, hg]
    · rw [Bool.not_eq_true] at hcd
      simp [dateFieldVals, probeDates, hcd, htd, hg]
  · rw [availableYears]
    exact (List.perm_insertionSort _ _).nodup_iff.mpr
      (collectYears_nodup getYear samples)
  · rw [availableYears]
    exact List.sorted_insertionSort _ _
  · intro y
    rw [availableYears, (List.perm_insertionSort _ _).mem_iff]
    exact mem_collectYears getYear samples y

/-- C9 witness: the resolution rules and the sortedness at concrete inputs. -/
theorem c9_witness :
    resolveYear demoGetYear c9ExplicitSample = some 2005 ∧
      resolveYear demoGetYear c9DateSample = some 1999 ∧
      resolveYear demoGetYear c9SkipSample = some 1999 ∧
      (availableYears demoGetYear [zeroYearSample]).Sorted (· ≥ ·) :=
  ⟨(c9_year_resolution demoGetYear []).1 c9ExplicitSample 2005 rfl
      (by norm_num),
   (c9_year_resolution demoGetYear []).2.1 c9DateSample 1999 (by decide)
      (by decide) rfl,
   (c9_year_resolution demoGetYear []).2.2.1 c9SkipSample 1999 (by decide)
      rfl (by decide) rfl,
   (c9_year_resolution demoGetYear [zeroYearSample]).2.2.2.2.1⟩
